import Mathlib

/-!
Shallow embedding of the messaging/reaction core of the Abdullah-Slack
application (`src/app.py`).

Modelling conventions:
* Timestamps (`created_at` stamps, the wall clock `time.time()`) are rationals;
  the seeded ISO timestamps of the demo overlay are encoded as their unix
  seconds.  The server-assigned `created_at` of an inserted row is passed in
  explicitly as the clock value at the moment of the insert.
* The Supabase table store is the `DB` record; its documented semantics
  (ordered/limited select, unique-key rejection for reactions and
  memberships) are modelled directly.  The `ORDER BY created_at` tie order is
  modelled as stable insertion order.
* A raised exception from a storage call is modelled by a `fail : Bool`
  oracle on the operation (and, for the per-row profile fetches, by a
  `failed : List String` oracle listing the author ids whose lookup raises);
  the `try/except` structure of each Python function is translated as the
  corresponding `if`.
* Streamlit session state (`st.session_state.demo_messages`, the refresh
  timer) is passed explicitly.
* `st.error` calls are modelled, where a claim needs them, as an extra
  `Bool` output ("a user-visible error was surfaced").
-/

namespace Slack

/-- A row of the `messages` table, or a demo-overlay message dict.  `none` in
`channel_id`/`recipient_id` models an absent or null key. -/
structure MessageRow where
  id : String
  user_id : String
  channel_id : Option String
  recipient_id : Option String
  content : String
  message_type : String
  created_at : ℚ
deriving DecidableEq, Repr

/-- A row of the `message_reactions` table. -/
structure ReactionRow where
  message_id : String
  user_id : String
  emoji : String
deriving DecidableEq, Repr

/-- A row of the `channel_members` table. -/
structure ChannelMember where
  user_id : String
  channel_id : String
deriving DecidableEq, Repr

/-- A row of the `user_profiles` table. -/
structure UserProfile where
  id : String
  username : String
  display_name : String
  avatar_url : String
  status : String
deriving DecidableEq, Repr

/-- A row of the `channels` table. -/
structure ChannelRow where
  id : String
  workspace_id : String
  name : String
  description : String
  is_private : Bool
  created_by : String
deriving DecidableEq, Repr

/-- The dict stored under the `user_profiles` key of a decorated
message/reaction: either (the relevant fields of) a full profile row, or one
of the two/three-key literal dicts (`avatar_url := none` models the key being
absent, as in the placeholder and demo-name dicts). -/
structure AttachedProfile where
  display_name : String
  username : String
  avatar_url : Option String
deriving DecidableEq, Repr

/-- The profile fields a full `user_profiles` row contributes when attached to
a message or reaction. -/
def UserProfile.info (p : UserProfile) : AttachedProfile :=
  ⟨p.display_name, p.username, some p.avatar_url⟩

/-- The placeholder dict used on a profile miss or a failed profile lookup
(`app.py` lines 278, 280, 359, 361, 499, 501). -/
def unknownProfile : AttachedProfile := ⟨"Unknown User", "unknown", none⟩

/-- A message dict after the read path attached `user_profiles` to it. -/
structure DecoratedMessage where
  msg : MessageRow
  user_profiles : AttachedProfile
deriving DecidableEq, Repr

/-- A reaction dict after the read path attached `user_profiles` to it. -/
structure DecoratedReaction where
  reaction : ReactionRow
  user_profiles : AttachedProfile
deriving DecidableEq, Repr

/-- Persistent table-store state (the storage collaborator). -/
structure DB where
  messages : List MessageRow
  message_reactions : List ReactionRow
  channel_members : List ChannelMember
  user_profiles : List UserProfile
  channels : List ChannelRow
deriving DecidableEq, Repr

/-- First hardcoded demo identity (`alex`). -/
def demoAlexId : String := "a1b2c3d4-e5f6-7890-abcd-ef1234567890"

/-- Second hardcoded demo identity (`sarah`). -/
def demoSarahId : String := "b2c3d4e5-f6g7-8901-bcde-fg2345678901"

/-- The `demo_user_ids` list of `app.py` (lines 291, 372, 888). -/
def demo_user_ids : List String := [demoAlexId, demoSarahId]

/-- Comparison key used by the store's `ORDER BY created_at` ascending. -/
@[reducible] def msgLE (a b : MessageRow) : Prop := a.created_at ≤ b.created_at

instance : DecidableRel msgLE :=
  fun a b => inferInstanceAs (Decidable (a.created_at ≤ b.created_at))

instance : IsTotal MessageRow msgLE := ⟨fun a b => le_total a.created_at b.created_at⟩

instance : IsTrans MessageRow msgLE := ⟨fun _ _ _ h₁ h₂ => le_trans h₁ h₂⟩

/-- Python `str.strip()`: drop leading and trailing whitespace.  Modelled
directly over the character list so that it evaluates inside the kernel. -/
def strip (s : String) : String :=
  ⟨((s.data.dropWhile Char.isWhitespace).reverse.dropWhile Char.isWhitespace).reverse⟩

/-- The store's `order("created_at", desc=False)`: a stable sort on
`created_at`, ties kept in insertion order. -/
def sortByCreatedAt (l : List MessageRow) : List MessageRow :=
  List.insertionSort msgLE l

/-- The per-row author profile fetch of the read paths: select from
`user_profiles` by `id`, take the first row, fall back to `unknownProfile` on
an empty result or on a raised exception. -/
def lookupProfileInfo (failed : List String) (db : DB) (uid : String) : AttachedProfile :=
  if uid ∈ failed then unknownProfile
  else
    match db.user_profiles.find? (fun p => p.id == uid) with
    | some p => p.info
    | none => unknownProfile

/-- `get_channel_messages` (`app.py` 254-285): select messages of the channel
ordered ascending by `created_at`, limited, then attach author profiles; on a
storage failure show an error and return `[]`. -/
def get_channel_messages (fail : Bool) (failed : List String) (db : DB)
    (channel_id : String) (limit : Nat) : List DecoratedMessage :=
  if fail then []
  else
    ((sortByCreatedAt (db.messages.filter
        (fun m => m.channel_id == some channel_id))).take limit).map
      (fun m => ⟨m, lookupProfileInfo failed db m.user_id⟩)

/-- In-memory Streamlit session state relevant to the demo overlay:
`st.session_state.demo_messages`, a dict keyed by conversation key. -/
structure SessionState where
  demo_messages : List (String × List MessageRow)
deriving DecidableEq, Repr

/-- The conversation key `f"{user_id}_{other_user_id}"`. -/
def conversationKey (user_id other_user_id : String) : String :=
  user_id ++ "_" ++ other_user_id

/-- Dict lookup in `st.session_state.demo_messages`. -/
def lookupConv (sess : SessionState) (key : String) : Option (List MessageRow) :=
  (sess.demo_messages.find? (fun kv => kv.1 == key)).map (fun kv => kv.2)

/-- Dict assignment `st.session_state.demo_messages[key] = msgs`. -/
def setConv (sess : SessionState) (key : String) (msgs : List MessageRow) : SessionState :=
  if sess.demo_messages.any (fun kv => kv.1 == key) then
    ⟨sess.demo_messages.map (fun kv => if kv.1 == key then (key, msgs) else kv)⟩
  else ⟨sess.demo_messages ++ [(key, msgs)]⟩

/-- Unix seconds of the seeded ISO timestamp `2024-01-15T10:00:00Z`. -/
def seedTime1 : ℚ := 1705312800

/-- Unix seconds of the seeded ISO timestamp `2024-01-15T10:01:00Z`. -/
def seedTime2 : ℚ := 1705312860

/-- The two scripted greeting messages seeded on first access to a demo
conversation (`app.py` 302-319). -/
def seedMessages (user_id other_user_id : String) : List MessageRow :=
  [ { id := "demo-init-1", user_id := other_user_id, channel_id := none,
      recipient_id := some user_id,
      content := "Hey! Welcome to the Slack clone! 👋",
      message_type := "text", created_at := seedTime1 },
    { id := "demo-init-2", user_id := other_user_id, channel_id := none,
      recipient_id := some user_id,
      content := "This is a demo conversation to show how messaging works. Try sending me a message!",
      message_type := "text", created_at := seedTime2 } ]

/-- The hardcoded `demo_user_names` table (`app.py` 329-332). -/
def demo_user_names (uid : String) : Option AttachedProfile :=
  if uid == demoAlexId then some ⟨"Alex Johnson", "alex", none⟩
  else if uid == demoSarahId then some ⟨"Sarah Chen", "sarah", none⟩
  else none

/-- Profile attachment on the demo read path (`app.py` 324-333). -/
def demoDecorate (user_id : String) (m : MessageRow) : AttachedProfile :=
  if m.user_id == user_id then ⟨"You", "you", none⟩
  else (demo_user_names m.user_id).getD ⟨"Demo User", "demo", none⟩

/-- `get_direct_messages` (`app.py` 287-366): a demo counterpart is redirected
to the in-memory overlay (seeding it on first access) before any storage
call; otherwise select null-channel messages between the two users, ordered
ascending, limited, decorated; on a storage failure return `[]`. -/
def get_direct_messages (fail : Bool) (failed : List String) (db : DB)
    (sess : SessionState) (user_id other_user_id : String) (limit : Nat) :
    List DecoratedMessage × SessionState :=
  if other_user_id ∈ demo_user_ids then
    let key := conversationKey user_id other_user_id
    let sess1 := match lookupConv sess key with
      | some _ => sess
      | none => setConv sess key (seedMessages user_id other_user_id)
    let msgs := (lookupConv sess1 key).getD []
    (msgs.map (fun m => ⟨m, demoDecorate user_id m⟩), sess1)
  else if fail then ([], sess)
  else
    let rows := (sortByCreatedAt (db.messages.filter (fun m =>
      m.channel_id == (none : Option String) &&
      ((m.user_id == user_id && m.recipient_id == some other_user_id) ||
       (m.user_id == other_user_id && m.recipient_id == some user_id))))).take limit
    (rows.map (fun m => ⟨m, lookupProfileInfo failed db m.user_id⟩), sess)

/-- Python `int()` on a rational: truncation toward zero, as applied to
`time.time()`. -/
def pyInt (t : ℚ) : Int := t.num.tdiv t.den

/-- `send_direct_message` (`app.py` 368-396): for a demo recipient,
synthesize a message dict (id `demo-msg-<int(time.time())>`) without any
storage access; otherwise insert a null-channel row.  No content validation
is performed; content is stripped.  `fail` models the insert raising (caught:
error shown, `None` returned). -/
def send_direct_message (fail : Bool) (db : DB) (user_id recipient_id content : String)
    (t : ℚ) : Option MessageRow × DB :=
  if recipient_id ∈ demo_user_ids then
    (some { id := "demo-msg-" ++ toString (pyInt t), user_id := user_id,
            channel_id := none, recipient_id := some recipient_id,
            content := strip content, message_type := "text", created_at := t }, db)
  else if fail then (none, db)
  else
    let row : MessageRow :=
      { id := "m" ++ toString db.messages.length, user_id := user_id,
        channel_id := none, recipient_id := some recipient_id,
        content := strip content, message_type := "text", created_at := t }
    (some row, { db with messages := db.messages ++ [row] })

/-- `send_message` (`app.py` 507-519): insert a channel row with stripped
content; no content validation.  `fail` models the insert raising (caught:
error shown, `None` returned). -/
def send_message (fail : Bool) (db : DB) (user_id channel_id content : String)
    (t : ℚ) : Option MessageRow × DB :=
  if fail then (none, db)
  else
    let row : MessageRow :=
      { id := "m" ++ toString db.messages.length, user_id := user_id,
        channel_id := some channel_id, recipient_id := none,
        content := strip content, message_type := "text", created_at := t }
    (some row, { db with messages := db.messages ++ [row] })

/-- `add_reaction` (`app.py` 450-461): insert into `message_reactions`; the
store rejects a duplicate `(message_id, user_id, emoji)`; every exception is
swallowed silently (`None` returned, no `st.error`).  The third component
records whether a user-visible error was surfaced (never). -/
def add_reaction (fail : Bool) (db : DB) (message_id user_id emoji : String) :
    Option ReactionRow × DB × Bool :=
  if (⟨message_id, user_id, emoji⟩ : ReactionRow) ∈ db.message_reactions then
    (none, db, false)
  else if fail then (none, db, false)
  else
    (some ⟨message_id, user_id, emoji⟩,
     { db with message_reactions := db.message_reactions ++ [⟨message_id, user_id, emoji⟩] },
     false)

/-- `remove_reaction` (`app.py` 463-475): delete by the composite key
(matching nothing is not an error); every exception is swallowed silently
(`False` returned, no `st.error`).  The third component records whether a
user-visible error was surfaced (never). -/
def remove_reaction (fail : Bool) (db : DB) (message_id user_id emoji : String) :
    Bool × DB × Bool :=
  if fail then (false, db, false)
  else
    (true,
     { db with message_reactions := db.message_reactions.filter (fun r =>
        !(r.message_id == message_id && r.user_id == user_id && r.emoji == emoji)) },
     false)

/-- `get_message_reactions` (`app.py` 477-505): select reactions of the
message (no ordering), attach author profiles with the placeholder fallback;
on a storage failure return `[]`. -/
def get_message_reactions (fail : Bool) (failed : List String) (db : DB)
    (message_id : String) : List DecoratedReaction :=
  if fail then []
  else
    (db.message_reactions.filter (fun r => r.message_id == message_id)).map
      (fun r => ⟨r, lookupProfileInfo failed db r.user_id⟩)

/-- `join_channel` (`app.py` 521-532): insert into `channel_members`; the
store rejects a duplicate `(user_id, channel_id)` with a "duplicate key"
error, which is caught without showing an error; any other failure shows an
error; `False` is returned on every exception.  The third component records
whether a user-visible error was surfaced. -/
def join_channel (fail : Bool) (db : DB) (user_id channel_id : String) :
    Bool × DB × Bool :=
  if (⟨user_id, channel_id⟩ : ChannelMember) ∈ db.channel_members then
    (false, db, false)
  else if fail then (false, db, true)
  else
    (true, { db with channel_members := db.channel_members ++ [⟨user_id, channel_id⟩] },
     false)

/-- `get_user_channels` (`app.py` 242-252): channels having a membership row
for the user; on a storage failure show an error and return `[]`. -/
def get_user_channels (fail : Bool) (db : DB) (user_id : String) : List ChannelRow :=
  if fail then []
  else
    db.channels.filter (fun ch =>
      db.channel_members.any (fun m => m.channel_id == ch.id && m.user_id == user_id))

/-- The two hardcoded demo user profile rows of `get_all_users`
(`app.py` 408-423, identical to the fallback literal at 433-448). -/
def demo_users : List UserProfile :=
  [ { id := demoAlexId, username := "alex", display_name := "Alex Johnson",
      avatar_url := "https://images.unsplash.com/photo-1507003211169-0a1dd7228f2d?w=150&h=150&fit=crop&crop=face",
      status := "online" },
    { id := demoSarahId, username := "sarah", display_name := "Sarah Chen",
      avatar_url := "https://images.unsplash.com/photo-1494790108755-2616b612b5bc?w=150&h=150&fit=crop&crop=face",
      status := "online" } ]

/-- `get_all_users` (`app.py` 398-448): select all profiles (optionally
excluding one id), append the demo users (filtered by the exclusion); on a
storage failure show an error and return the hardcoded demo-user list as a
fallback. -/
def get_all_users (fail : Bool) (db : DB) (exclude_user_id : Option String) :
    List UserProfile :=
  if fail then demo_users
  else
    let users := match exclude_user_id with
      | some ex => db.user_profiles.filter (fun p => !(p.id == ex))
      | none => db.user_profiles
    let demo := match exclude_user_id with
      | some ex => demo_users.filter (fun u => !(u.id == ex))
      | none => demo_users
    users ++ demo

/-- The UI send handler for the channel view (`app.py` 880-883): the message
is dispatched only when `send_button and message_input and
message_input.strip()` is truthy; otherwise nothing happens.  This is the
only place empty content is rejected, and it is rejected silently. -/
def handle_send_channel (db : DB) (user_id channel_id message_input : String)
    (t : ℚ) : Option MessageRow × DB :=
  if message_input ≠ "" ∧ strip message_input ≠ "" then
    send_message false db user_id channel_id message_input t
  else (none, db)

/-- The sync-loop timer state: `st.session_state.last_refresh`. -/
structure SyncState where
  last_refresh : ℚ
deriving DecidableEq, Repr

/-- The auto-refresh check run on every UI cycle while a conversation is
active (`app.py` 757-761): refresh (rerun, which re-executes the active list
read) and reset the timer exactly when `time.time() - last_refresh > 5`,
strictly. First component: whether a rerun was triggered. -/
def auto_refresh_check (now : ℚ) (st : SyncState) : Bool × SyncState :=
  if now - st.last_refresh > 5 then (true, ⟨now⟩) else (false, st)

/-- The send-button cycle for the channel view (`app.py` 880-899): if a
message was dispatched and stored, a rerun is triggered immediately; the
refresh timer is neither consulted nor reset.  First component: whether a
rerun was triggered. -/
def send_button_cycle (db : DB) (user_id channel_id message_input : String)
    (t : ℚ) (st : SyncState) : Bool × SyncState :=
  (((handle_send_channel db user_id channel_id message_input t).1).isSome, st)

/-! ## Concrete states used by counterexamples and witnesses -/

/-- An empty store. -/
def db0 : DB := ⟨[], [], [], [], []⟩

/-! ## Claim C1 -/

/-- C1 counterexample: posting whitespace-only content through `send_message`
does not fail with any validation error; it succeeds and a message row is
created (with empty stored content), so the state changes. -/
theorem c1_counterexample :
    (send_message false db0 "u1" "ch1" " " 1).1.isSome = true ∧
    (send_message false db0 "u1" "ch1" " " 1).2.messages.length = 1 := by
  decide

/-- C1 (amended): `send_message` and `send_direct_message` perform no content
validation.  Posting content that is empty after stripping succeeds: the
channel path inserts a row with empty content, the demo direct path returns a
synthesized message with empty content.  Blank input is rejected only by the
UI send handler, which silently declines to dispatch (no error, state
unchanged). -/
theorem c1_no_validation (db : DB) (u cid r content : String) (t : ℚ)
    (hblank : strip content = "") (hr : r ∈ demo_user_ids) :
    (∃ row, (send_message false db u cid content t).1 = some row ∧ row.content = "" ∧
      (send_message false db u cid content t).2.messages = db.messages ++ [row]) ∧
    (∃ row, (send_direct_message false db u r content t).1 = some row ∧ row.content = "") ∧
    handle_send_channel db u cid content t = (none, db) := by
  refine ⟨⟨_, rfl, hblank, rfl⟩,
    ⟨⟨"demo-msg-" ++ toString (pyInt t), u, none, some r, strip content, "text", t⟩,
      by simp [send_direct_message, hr], hblank⟩, ?_⟩
  simp [handle_send_channel, hblank]

/-- Witness for `c1_no_validation` at a concrete blank input. -/
theorem c1_no_validation_witness :
    (∃ row, (send_message false db0 "u1" "ch1" " " 1).1 = some row ∧ row.content = "" ∧
      (send_message false db0 "u1" "ch1" " " 1).2.messages = db0.messages ++ [row]) ∧
    (∃ row, (send_direct_message false db0 "u1" demoAlexId " " 1).1 = some row ∧
      row.content = "") ∧
    handle_send_channel db0 "u1" "ch1" " " 1 = (none, db0) :=
  c1_no_validation db0 "u1" "ch1" demoAlexId " " 1 (by decide) (by decide)

/-! ## Claim C2 -/

/-- Unfolding of `get_channel_messages` on the non-failing path. -/
theorem get_channel_messages_ok (failed : List String) (db : DB) (cid : String)
    (limit : Nat) :
    get_channel_messages false failed db cid limit =
      ((sortByCreatedAt (db.messages.filter
          (fun m => m.channel_id == some cid))).take limit).map
        (fun m => ⟨m, lookupProfileInfo failed db m.user_id⟩) := rfl

/-- Inserting `x` into a sorted list whose appended last element is an upper
bound of `x` commutes with the append. -/
theorem orderedInsert_append_last (x new : MessageRow) (h : msgLE x new)
    (l : List MessageRow) :
    List.orderedInsert msgLE x (l ++ [new]) = List.orderedInsert msgLE x l ++ [new] := by
  induction l with
  | nil =>
    simp only [List.nil_append, List.orderedInsert]
    rw [if_pos h]
    rfl
  | cons y l ih =>
    simp only [List.cons_append, List.orderedInsert, List.append_eq]
    by_cases hxy : msgLE x y
    · rw [if_pos hxy, if_pos hxy]
      rfl
    · rw [if_neg hxy, if_neg hxy, ih]
      rfl

/-- Stable insertion sort keeps an appended upper bound as the last element. -/
theorem insertionSort_append_max (new : MessageRow) (l : List MessageRow)
    (h : ∀ x ∈ l, msgLE x new) :
    List.insertionSort msgLE (l ++ [new]) = List.insertionSort msgLE l ++ [new] := by
  induction l with
  | nil => simp [List.insertionSort, List.orderedInsert]
  | cons y l ih =>
    simp only [List.cons_append, List.insertionSort, List.append_eq]
    rw [ih (fun x hx => h x (List.mem_cons_of_mem _ hx)),
        orderedInsert_append_last y new (h y (List.mem_cons_self _ _))]

/-- `sortByCreatedAt` version of `insertionSort_append_max`. -/
theorem sortByCreatedAt_append_max (new : MessageRow) (l : List MessageRow)
    (h : ∀ x ∈ l, msgLE x new) :
    sortByCreatedAt (l ++ [new]) = sortByCreatedAt l ++ [new] :=
  insertionSort_append_max new l h

/-- Stripping the decoration recovers the underlying row list. -/
theorem map_msg_decorate (g : MessageRow → AttachedProfile) (l : List MessageRow) :
    (l.map (fun m => (⟨m, g m⟩ : DecoratedMessage))).map DecoratedMessage.msg = l := by
  induction l with
  | nil => rfl
  | cons x xs ih => simp [ih]

/-- C2 (amended): for non-empty content, if the channel holds fewer than 50
messages before the post and the server stamp of the new message is at least
every existing stamp in the channel, then posting followed by listing (limit
50, the default) returns the new message as the last element.  (The
counterexample shows the hypothesis on the prior message count is necessary:
the ascending-order limit keeps the oldest window, so in a full channel the
new message is dropped.) -/
theorem c2_post_then_list (db : DB) (failed : List String) (u cid content : String)
    (t : ℚ)
    (hcontent : strip content ≠ "")
    (hcount : (db.messages.filter (fun m => m.channel_id == some cid)).length < 50)
    (htime : ∀ m ∈ db.messages, m.channel_id = some cid → m.created_at ≤ t) :
    (send_message false db u cid content t).1.isSome = true ∧
    ((get_channel_messages false failed (send_message false db u cid content t).2 cid
        50).map DecoratedMessage.msg).getLast? = (send_message false db u cid content t).1 := by
  obtain ⟨row, hrow, hchan, hcrt⟩ :
      ∃ row, send_message false db u cid content t =
          (some row, { db with messages := db.messages ++ [row] }) ∧
        row.channel_id = some cid ∧ row.created_at = t :=
    ⟨_, rfl, rfl, rfl⟩
  rw [hrow]
  refine ⟨rfl, ?_⟩
  have hfil : ((db.messages ++ [row]).filter (fun m => m.channel_id == some cid)) =
      db.messages.filter (fun m => m.channel_id == some cid) ++ [row] := by
    rw [List.filter_append]
    simp [List.filter_cons, hchan]
  have hsort : sortByCreatedAt (db.messages.filter
        (fun m => m.channel_id == some cid) ++ [row]) =
      sortByCreatedAt (db.messages.filter (fun m => m.channel_id == some cid)) ++ [row] := by
    apply sortByCreatedAt_append_max
    intro x hx
    rw [List.mem_filter] at hx
    have hcid : x.channel_id = some cid := by simpa using hx.2
    have hle := htime x hx.1 hcid
    simpa [msgLE, hcrt] using hle
  have hlen : (sortByCreatedAt (db.messages.filter
        (fun m => m.channel_id == some cid)) ++ [row]).length ≤ 50 := by
    rw [List.length_append]
    simp only [sortByCreatedAt, List.length_insertionSort, List.length_singleton]
    omega
  rw [get_channel_messages_ok, hfil, hsort, List.take_of_length_le hlen,
      map_msg_decorate]
  exact List.getLast?_concat _

/-- Witness for `c2_post_then_list`: posting "hello" to an empty store. -/
theorem c2_post_then_list_witness :
    (send_message false db0 "u1" "ch1" "hello" 1).1.isSome = true ∧
    ((get_channel_messages false [] (send_message false db0 "u1" "ch1" "hello" 1).2 "ch1"
        50).map DecoratedMessage.msg).getLast? = (send_message false db0 "u1" "ch1" "hello" 1).1 :=
  c2_post_then_list db0 [] "u1" "ch1" "hello" 1 (by decide) (by decide)
    (by intro m hm; cases hm)

/-- A store whose channel `ch1` already holds 50 messages, with ascending
timestamps 0..49 (the state reached by 50 successive posts). -/
def dbFull : DB :=
  ⟨(List.range 50).map (fun i =>
      { id := "m" ++ toString i, user_id := "u1", channel_id := some "ch1",
        recipient_id := none, content := "x", message_type := "text",
        created_at := (i : ℚ) }), [], [], [], []⟩

/-- C2 counterexample: posting to a channel that already holds 50 messages
succeeds, but the immediately following list (default limit 50) does not
contain the new message at all — the ascending-order limit returns the 50
oldest messages — so it is in particular not the last element. -/
theorem c2_counterexample :
    (send_message false dbFull "u1" "ch1" "hello" 100).1.isSome = true ∧
    ∀ dm ∈ get_channel_messages false []
        (send_message false dbFull "u1" "ch1" "hello" 100).2 "ch1" 50,
      dm.msg.content ≠ "hello" := by
  decide

/-! ## Shared lemmas about the demo-messages dict and the read paths -/

/-- Unfolding of `get_direct_messages` on the persistent non-failing path. -/
theorem get_direct_messages_persistent (fl : List String) (db : DB)
    (sess : SessionState) (u o : String) (limit : Nat) (ho : o ∉ demo_user_ids) :
    get_direct_messages false fl db sess u o limit =
      (((sortByCreatedAt (db.messages.filter (fun m =>
          m.channel_id == (none : Option String) &&
          ((m.user_id == u && m.recipient_id == some o) ||
           (m.user_id == o && m.recipient_id == some u))))).take limit).map
        (fun m => ⟨m, lookupProfileInfo fl db m.user_id⟩), sess) := by
  unfold get_direct_messages
  rw [if_neg ho]
  rfl

/-- Unfolding of `get_direct_messages` on the demo-overlay path. -/
theorem get_direct_messages_demo (f : Bool) (fl : List String) (db : DB)
    (sess : SessionState) (u r : String) (limit : Nat) (hr : r ∈ demo_user_ids) :
    get_direct_messages f fl db sess u r limit =
      (let key := conversationKey u r
       let sess1 := match lookupConv sess key with
         | some _ => sess
         | none => setConv sess key (seedMessages u r)
       (((lookupConv sess1 key).getD []).map (fun m => ⟨m, demoDecorate u m⟩), sess1)) := by
  unfold get_direct_messages
  rw [if_pos hr]

/-- Replacing the value at a present key and then searching for that key
finds the replacement. -/
theorem find?_map_replace (key : String) (v : List MessageRow)
    (l : List (String × List MessageRow)) (hany : l.any (fun kv => kv.1 == key) = true) :
    ((l.map (fun kv => if kv.1 == key then (key, v) else kv)).find?
      (fun kv => kv.1 == key)) = some (key, v) := by
  induction l with
  | nil => cases hany
  | cons kv l ih =>
    by_cases hk : (kv.1 == key) = true
    · rw [List.map_cons, if_pos hk]
      exact List.find?_cons_of_pos _ (by simp)
    · have hkf : (kv.1 == key) = false := Bool.eq_false_iff.mpr hk
      have hany' : l.any (fun kv => kv.1 == key) = true := by
        simpa [List.any_cons, hkf] using hany
      rw [List.map_cons, if_neg hk]
      rw [List.find?_cons_of_neg _ (by simp [hkf])]
      exact ih hany'

/-- Appending a fresh key-value pair and then searching for that key finds
the appended pair. -/
theorem find?_append_single (key : String) (v : List MessageRow)
    (l : List (String × List MessageRow)) (hany : l.any (fun kv => kv.1 == key) = false) :
    ((l ++ [(key, v)]).find? (fun kv => kv.1 == key)) = some (key, v) := by
  induction l with
  | nil =>
    rw [List.nil_append]
    exact List.find?_cons_of_pos _ (by simp)
  | cons kv l ih =>
    simp only [List.any_cons, Bool.or_eq_false_iff] at hany
    rw [List.cons_append, List.find?_cons_of_neg _ (by simp [hany.1])]
    exact ih hany.2

/-- Looking up a key just assigned in the demo-messages dict returns the
assigned value. -/
theorem lookupConv_setConv (sess : SessionState) (key : String) (v : List MessageRow) :
    lookupConv (setConv sess key v) key = some v := by
  unfold setConv
  by_cases hany : sess.demo_messages.any (fun kv => kv.1 == key) = true
  · rw [if_pos hany]
    unfold lookupConv
    rw [find?_map_replace key v _ hany]
    rfl
  · rw [if_neg hany]
    unfold lookupConv
    rw [find?_append_single key v _ (Bool.eq_false_iff.mpr hany)]
    rfl

/-- A profile lookup whose author has no profile row (or whose fetch raises)
resolves to the placeholder. -/
theorem lookupProfileInfo_unknown (fl : List String) (db : DB) (uid : String)
    (h : (∀ p ∈ db.user_profiles, p.id ≠ uid) ∨ uid ∈ fl) :
    lookupProfileInfo fl db uid = unknownProfile := by
  unfold lookupProfileInfo
  by_cases hin : uid ∈ fl
  · rw [if_pos hin]
  · rw [if_neg hin]
    have hnone : db.user_profiles.find? (fun p => p.id == uid) = none := by
      rw [List.find?_eq_none]
      intro p hp
      rcases h with h | h
      · simpa using h p hp
      · exact absurd h hin
    rw [hnone]

/-- Unfolding of `get_message_reactions` on the non-failing path. -/
theorem get_message_reactions_ok (fl : List String) (db : DB) (mid : String) :
    get_message_reactions false fl db mid =
      (db.message_reactions.filter (fun r => r.message_id == mid)).map
        (fun r => ⟨r, lookupProfileInfo fl db r.user_id⟩) := rfl

/-! ## Claim C4 -/

/-- C4: demo overlay isolation.  A demo-conversation read is independent of
the persistent store and of its failure oracle (it never touches storage); a
demo-conversation post leaves the persistent store unchanged; consequently
`get_channel_messages` for any channel is unaffected by a demo post; and
every message returned by a persistent-path direct-message query is a row of
the persistent `messages` table, so no demo-overlay message is ever among
them. -/
theorem c4_demo_isolation (db db' : DB) (sess : SessionState)
    (f f' g : Bool) (fl : List String)
    (u r o cid content : String) (t : ℚ) (limit : Nat) (dm : DecoratedMessage)
    (hr : r ∈ demo_user_ids) (ho : o ∉ demo_user_ids)
    (hdm : dm ∈ (get_direct_messages false fl db sess u o limit).1) :
    get_direct_messages f fl db sess u r limit =
      get_direct_messages f' fl db' sess u r limit ∧
    (send_direct_message g db u r content t).2 = db ∧
    get_channel_messages f fl (send_direct_message g db u r content t).2 cid limit =
      get_channel_messages f fl db cid limit ∧
    dm.msg ∈ db.messages := by
  have hsend : (send_direct_message g db u r content t).2 = db := by
    unfold send_direct_message
    rw [if_pos hr]
  refine ⟨?_, hsend, by rw [hsend], ?_⟩
  · rw [get_direct_messages_demo f fl db sess u r limit hr,
        get_direct_messages_demo f' fl db' sess u r limit hr]
  · rw [get_direct_messages_persistent fl db sess u o limit ho] at hdm
    obtain ⟨m, hm, hmeq⟩ := List.mem_map.mp hdm
    have hm1 : m ∈ sortByCreatedAt (db.messages.filter _) := List.mem_of_mem_take hm
    have hm2 : m ∈ db.messages.filter _ := (List.mem_insertionSort msgLE).mp hm1
    have := (List.mem_filter.mp hm2).1
    rw [← hmeq]
    exact this

/-- A store holding one persistent direct message between `u1` and `o1`. -/
def dbDM : DB :=
  ⟨[{ id := "m0", user_id := "u1", channel_id := none, recipient_id := some "o1",
      content := "hi", message_type := "text", created_at := 1 }], [], [], [], []⟩

/-- An empty session state. -/
def sess0 : SessionState := ⟨[]⟩

/-- Witness for `c4_demo_isolation` at concrete stores. -/
theorem c4_demo_isolation_witness :
    get_direct_messages true [] dbDM sess0 "u1" demoAlexId 50 =
      get_direct_messages false [] db0 sess0 "u1" demoAlexId 50 ∧
    (send_direct_message false dbDM "u1" demoAlexId "hello" 2).2 = dbDM ∧
    get_channel_messages false []
        (send_direct_message false dbDM "u1" demoAlexId "hello" 2).2 "ch1" 50 =
      get_channel_messages false [] dbDM "ch1" 50 ∧
    (⟨{ id := "m0", user_id := "u1", channel_id := none, recipient_id := some "o1",
        content := "hi", message_type := "text", created_at := 1 },
      unknownProfile⟩ : DecoratedMessage).msg ∈ dbDM.messages :=
  c4_demo_isolation dbDM db0 sess0 true false false [] "u1" demoAlexId "o1" "ch1"
    "hello" 2 50 _ (by decide) (by decide) (by decide)

/-! ## Claim C5 -/

/-- C5 (amended): the persistent read paths (channel messages and
persistent-path direct messages) return sequences that are non-decreasing in
`created_at` and contain at most `limit` messages, and repeated calls on
unchanged data return identical sequences (the model is deterministic, the
store's tie order being stable insertion order).  The demo-overlay direct
path returns its conversation list in full, with no `limit` cap (see the
counterexample); that list is non-decreasing whenever every stored overlay
list is. -/
theorem c5_list_contract (db : DB) (sess : SessionState) (fl : List String)
    (cid u o r : String) (limit : Nat)
    (ho : o ∉ demo_user_ids) (hr : r ∈ demo_user_ids)
    (hsorted : ∀ kv ∈ sess.demo_messages,
      List.Pairwise (fun a b : MessageRow => a.created_at ≤ b.created_at) kv.2) :
    List.Pairwise (fun a b : DecoratedMessage => a.msg.created_at ≤ b.msg.created_at)
      (get_channel_messages false fl db cid limit) ∧
    (get_channel_messages false fl db cid limit).length ≤ limit ∧
    get_channel_messages false fl db cid limit = get_channel_messages false fl db cid limit ∧
    List.Pairwise (fun a b : DecoratedMessage => a.msg.created_at ≤ b.msg.created_at)
      ((get_direct_messages false fl db sess u o limit).1) ∧
    ((get_direct_messages false fl db sess u o limit).1).length ≤ limit ∧
    List.Pairwise (fun a b : DecoratedMessage => a.msg.created_at ≤ b.msg.created_at)
      ((get_direct_messages false fl db sess u r limit).1) := by
  have key : ∀ (l : List MessageRow) (g : MessageRow → AttachedProfile),
      List.Pairwise msgLE l →
      List.Pairwise (fun a b : DecoratedMessage => a.msg.created_at ≤ b.msg.created_at)
        (l.map (fun m => ⟨m, g m⟩)) := by
    intro l g hl
    exact List.pairwise_map.mpr hl
  have hsorttake : ∀ l : List MessageRow,
      List.Pairwise msgLE ((sortByCreatedAt l).take limit) := by
    intro l
    exact List.Pairwise.sublist (List.take_sublist _ _)
      (List.sorted_insertionSort msgLE l)
  refine ⟨?_, ?_, rfl, ?_, ?_, ?_⟩
  · rw [get_channel_messages_ok]
    exact key _ _ (hsorttake _)
  · rw [get_channel_messages_ok, List.length_map]
    exact List.length_take_le _ _
  · rw [get_direct_messages_persistent fl db sess u o limit ho]
    exact key _ _ (hsorttake _)
  · rw [get_direct_messages_persistent fl db sess u o limit ho, List.length_map]
    exact List.length_take_le _ _
  · rw [get_direct_messages_demo false fl db sess u r limit hr]
    cases hc : lookupConv sess (conversationKey u r) with
    | some msgs =>
      have hmem : ∀ kv ∈ sess.demo_messages, True := fun _ _ => trivial
      obtain ⟨kv, hkv, hkveq⟩ :
          ∃ kv ∈ sess.demo_messages, kv.2 = msgs := by
        unfold lookupConv at hc
        obtain ⟨kv, hfind, h2⟩ := Option.map_eq_some'.mp hc
        exact ⟨kv, List.mem_of_find?_eq_some hfind, h2⟩
      have hms : List.Pairwise
          (fun a b : MessageRow => a.created_at ≤ b.created_at) msgs :=
        hkveq ▸ hsorted kv hkv
      simp only [hc, Option.getD_some]
      exact key _ _ hms
    | none =>
      simp only [hc, lookupConv_setConv, Option.getD_some]
      apply key
      unfold seedMessages
      refine List.pairwise_cons.mpr ⟨?_, List.pairwise_singleton _ _⟩
      intro b hb
      rw [List.mem_singleton] at hb
      rw [hb]
      show seedTime1 ≤ seedTime2
      norm_num [seedTime1, seedTime2]

/-- Witness for `c5_list_contract` at concrete stores. -/
theorem c5_list_contract_witness :
    List.Pairwise (fun a b : DecoratedMessage => a.msg.created_at ≤ b.msg.created_at)
      (get_channel_messages false [] dbDM "ch1" 50) ∧
    (get_channel_messages false [] dbDM "ch1" 50).length ≤ 50 ∧
    get_channel_messages false [] dbDM "ch1" 50 = get_channel_messages false [] dbDM "ch1" 50 ∧
    List.Pairwise (fun a b : DecoratedMessage => a.msg.created_at ≤ b.msg.created_at)
      ((get_direct_messages false [] dbDM sess0 "u1" "o1" 50).1) ∧
    ((get_direct_messages false [] dbDM sess0 "u1" "o1" 50).1).length ≤ 50 ∧
    List.Pairwise (fun a b : DecoratedMessage => a.msg.created_at ≤ b.msg.created_at)
      ((get_direct_messages false [] dbDM sess0 "u1" demoAlexId 50).1) :=
  c5_list_contract dbDM sess0 [] "ch1" "u1" "o1" demoAlexId 50 (by decide) (by decide)
    (by intro kv hkv; cases hkv)

/-- A demo conversation that accumulated 51 messages: the two seeds plus 49
posts at ascending clock times (exactly the overlay state that 49 sends
produce). -/
def bigDemoList : List MessageRow :=
  seedMessages "u1" demoAlexId ++ (List.range 49).map (fun i =>
    { id := "demo-msg-" ++ toString (1705400000 + i), user_id := "u1",
      channel_id := none, recipient_id := some demoAlexId, content := "x",
      message_type := "text", created_at := ((1705400000 + i : Nat) : ℚ) })

/-- The session state holding `bigDemoList`. -/
def sessBig : SessionState := ⟨[(conversationKey "u1" demoAlexId, bigDemoList)]⟩

/-- C5 counterexample: a demo-conversation list call with the default limit
50 returns all 51 stored messages — the overlay path applies no limit cap. -/
theorem c5_counterexample :
    ((get_direct_messages false [] db0 sessBig "u1" demoAlexId 50).1).length = 51 ∧
    ¬(((get_direct_messages false [] db0 sessBig "u1" demoAlexId 50).1).length ≤ 50) := by
  decide

/-! ## Claim C6 -/

/-- C6: a message or reaction whose author's profile row is missing from the
store (or whose profile fetch raises) is decorated with the placeholder
profile, with display name "Unknown User" and username "unknown"; and the
returned row sequence of the channel read is entirely independent of the
profiles table and of the lookup-failure oracle, so the read never fails
because a profile row is missing. -/
theorem c6_placeholder_profile (db : DB) (fl fl' : List String) (ps : List UserProfile)
    (cid mid : String) (limit : Nat) (dm : DecoratedMessage) (dr : DecoratedReaction)
    (hdm : dm ∈ get_channel_messages false fl db cid limit)
    (hdmmiss : (∀ p ∈ db.user_profiles, p.id ≠ dm.msg.user_id) ∨ dm.msg.user_id ∈ fl)
    (hdr : dr ∈ get_message_reactions false fl db mid)
    (hdrmiss : (∀ p ∈ db.user_profiles, p.id ≠ dr.reaction.user_id) ∨
      dr.reaction.user_id ∈ fl) :
    dm.user_profiles = unknownProfile ∧
    dr.user_profiles = unknownProfile ∧
    (get_channel_messages false fl db cid limit).map DecoratedMessage.msg =
      (get_channel_messages false fl' { db with user_profiles := ps } cid limit).map
        DecoratedMessage.msg := by
  refine ⟨?_, ?_, ?_⟩
  · rw [get_channel_messages_ok] at hdm
    obtain ⟨m, hm, hmeq⟩ := List.mem_map.mp hdm
    rw [← hmeq] at hdmmiss ⊢
    exact lookupProfileInfo_unknown fl db m.user_id hdmmiss
  · rw [get_message_reactions_ok] at hdr
    obtain ⟨rr, hrr, hrreq⟩ := List.mem_map.mp hdr
    rw [← hrreq] at hdrmiss ⊢
    exact lookupProfileInfo_unknown fl db rr.user_id hdrmiss
  · rw [get_channel_messages_ok, get_channel_messages_ok, map_msg_decorate,
        map_msg_decorate]

/-- A store holding one channel message and one reaction whose authors have
no profile rows. -/
def dbMiss : DB :=
  ⟨[{ id := "m0", user_id := "ghost1", channel_id := some "ch1", recipient_id := none,
      content := "hi", message_type := "text", created_at := 1 }],
   [⟨"m0", "ghost2", "👍"⟩], [], [], []⟩

/-- Witness for `c6_placeholder_profile` at a concrete store with missing
profiles. -/
theorem c6_placeholder_profile_witness :
    (⟨{ id := "m0", user_id := "ghost1", channel_id := some "ch1", recipient_id := none,
        content := "hi", message_type := "text", created_at := 1 },
      unknownProfile⟩ : DecoratedMessage).user_profiles = unknownProfile ∧
    (⟨⟨"m0", "ghost2", "👍"⟩, unknownProfile⟩ : DecoratedReaction).user_profiles =
      unknownProfile ∧
    (get_channel_messages false [] dbMiss "ch1" 50).map DecoratedMessage.msg =
      (get_channel_messages false ["ghost1"] { dbMiss with user_profiles := [] } "ch1"
        50).map DecoratedMessage.msg :=
  c6_placeholder_profile dbMiss [] ["ghost1"] [] "ch1" "m0" 50 _ _
    (by decide) (by decide) (by decide) (by decide)

/-! ## Claim C7 -/

/-- C7 counterexample: when the storage call of `get_all_users` fails, the
function does not degrade to an empty result set — it returns the hardcoded
two-element demo-user list. -/
theorem c7_counterexample :
    get_all_users true db0 none = demo_users ∧
    (get_all_users true db0 none).length = 2 := ⟨rfl, rfl⟩

/-- C7 (amended): when the storage collaborator call fails, the channel
message list, the persistent-path direct message list, the reaction list and
the membership listing all degrade to an empty result set; the user listing
instead degrades to the hardcoded demo-user fallback list (which is not
empty). -/
theorem c7_reads_degrade (db : DB) (sess : SessionState) (fl : List String)
    (cid mid u o : String) (ex : Option String) (limit : Nat)
    (ho : o ∉ demo_user_ids) :
    get_channel_messages true fl db cid limit = [] ∧
    get_direct_messages true fl db sess u o limit = ([], sess) ∧
    get_message_reactions true fl db mid = [] ∧
    get_user_channels true db u = [] ∧
    get_all_users true db ex = demo_users := by
  refine ⟨rfl, ?_, rfl, rfl, rfl⟩
  unfold get_direct_messages
  rw [if_neg ho]
  rfl

/-- Witness for `c7_reads_degrade` at concrete arguments. -/
theorem c7_reads_degrade_witness :
    get_channel_messages true [] dbDM "ch1" 50 = [] ∧
    get_direct_messages true [] dbDM sess0 "u1" "o1" 50 = ([], sess0) ∧
    get_message_reactions true [] dbDM "m0" = [] ∧
    get_user_channels true dbDM "u1" = [] ∧
    get_all_users true dbDM (some "u1") = demo_users :=
  c7_reads_degrade dbDM sess0 [] "ch1" "m0" "u1" "o1" (some "u1") 50 (by decide)

/-! ## Claim C3 -/

/-- C3: reaction add/remove are idempotent no-ops on conflict.  Starting from
a store satisfying the uniqueness constraint, adding the same reaction twice
leaves exactly one `(m, u, e)` row and surfaces no user-visible error on
either call; removing a reaction that does not exist returns success, leaves
the store unchanged, and surfaces no error. -/
theorem c3_reaction_idempotence (db db2 : DB) (m u e : String)
    (h1 : db.message_reactions.count ⟨m, u, e⟩ ≤ 1)
    (h2 : (⟨m, u, e⟩ : ReactionRow) ∉ db2.message_reactions) :
    ((add_reaction false (add_reaction false db m u e).2.1 m u e).2.1.message_reactions.count
        (⟨m, u, e⟩ : ReactionRow)) = 1 ∧
    (add_reaction false db m u e).2.2 = false ∧
    (add_reaction false (add_reaction false db m u e).2.1 m u e).2.2 = false ∧
    (remove_reaction false db2 m u e).1 = true ∧
    (remove_reaction false db2 m u e).2.1 = db2 ∧
    (remove_reaction false db2 m u e).2.2 = false := by
  have hfilter : db2.message_reactions.filter (fun r =>
      !(r.message_id == m && r.user_id == u && r.emoji == e)) = db2.message_reactions := by
    apply List.filter_eq_self.mpr
    intro r hrmem
    have hne : r ≠ ⟨m, u, e⟩ := fun h => h2 (h ▸ hrmem)
    have hx : ¬((r.message_id == m && r.user_id == u && r.emoji == e) = true) := by
      intro h
      apply hne
      simp only [Bool.and_eq_true, beq_iff_eq] at h
      cases r
      simp_all
    simp only [Bool.not_eq_true']
    exact Bool.eq_false_iff.mpr hx
  have hrem2 : (remove_reaction false db2 m u e).2.1 = db2 := by
    show ({ db2 with message_reactions := db2.message_reactions.filter (fun r =>
      !(r.message_id == m && r.user_id == u && r.emoji == e)) } : DB) = db2
    rw [hfilter]
  by_cases hmem : (⟨m, u, e⟩ : ReactionRow) ∈ db.message_reactions
  · have hcount : db.message_reactions.count (⟨m, u, e⟩ : ReactionRow) = 1 :=
      le_antisymm h1 (List.one_le_count_iff.mpr hmem)
    have e1 : add_reaction false db m u e = (none, db, false) := by
      unfold add_reaction
      rw [if_pos hmem]
    refine ⟨?_, ?_, ?_, rfl, hrem2, rfl⟩ <;> simp only [e1, hcount]
  · have hzero : db.message_reactions.count (⟨m, u, e⟩ : ReactionRow) = 0 :=
      List.count_eq_zero.mpr hmem
    have e1 : add_reaction false db m u e =
        (some ⟨m, u, e⟩,
         { db with message_reactions := db.message_reactions ++ [⟨m, u, e⟩] }, false) := by
      unfold add_reaction
      rw [if_neg hmem]
      rfl
    have hmem' : (⟨m, u, e⟩ : ReactionRow) ∈
        (db.message_reactions ++ [(⟨m, u, e⟩ : ReactionRow)]) :=
      List.mem_append_right _ (List.mem_singleton_self _)
    have e2 : add_reaction false
        ({ db with message_reactions := db.message_reactions ++ [⟨m, u, e⟩] }) m u e =
        (none, { db with message_reactions := db.message_reactions ++ [⟨m, u, e⟩] }, false) := by
      unfold add_reaction
      rw [if_pos hmem']
    refine ⟨?_, ?_, ?_, rfl, hrem2, rfl⟩ <;>
      simp only [e1, e2] <;>
      simp [List.count_append, hzero]

/-- Witness for `c3_reaction_idempotence` at a concrete store. -/
theorem c3_reaction_idempotence_witness :
    ((add_reaction false (add_reaction false db0 "m1" "u1" "👍").2.1 "m1" "u1" "👍").2.1.message_reactions.count
        (⟨"m1", "u1", "👍"⟩ : ReactionRow)) = 1 ∧
    (add_reaction false db0 "m1" "u1" "👍").2.2 = false ∧
    (add_reaction false (add_reaction false db0 "m1" "u1" "👍").2.1 "m1" "u1" "👍").2.2 = false ∧
    (remove_reaction false db0 "m1" "u1" "👍").1 = true ∧
    (remove_reaction false db0 "m1" "u1" "👍").2.1 = db0 ∧
    (remove_reaction false db0 "m1" "u1" "👍").2.2 = false :=
  c3_reaction_idempotence db0 db0 "m1" "u1" "👍" (by decide) (by decide)

/-! ## Claim C8 -/

/-- C8 counterexample: a second `join_channel` for the same `(user, channel)`
is not treated as success — it returns `False` (so e.g. the "Joined!"
confirmation is skipped), even though no error is surfaced. -/
theorem c8_counterexample :
    (join_channel false db0 "u1" "1").1 = true ∧
    (join_channel false (join_channel false db0 "u1" "1").2.1 "u1" "1").1 = false ∧
    (join_channel false (join_channel false db0 "u1" "1").2.1 "u1" "1").2.2 = false := by
  decide

/-- C8 (amended): joining twice is not an error — the duplicate-key condition
is caught and no error is surfaced on either call, and exactly one membership
row for `(user, channel)` results — but the duplicate call returns `False`
(failure), not success. -/
theorem c8_join_idempotent_effect (db : DB) (u c : String)
    (h : db.channel_members.count ⟨u, c⟩ ≤ 1) :
    ((join_channel false (join_channel false db u c).2.1 u c).2.1.channel_members.count
        (⟨u, c⟩ : ChannelMember)) = 1 ∧
    (join_channel false db u c).2.2 = false ∧
    (join_channel false (join_channel false db u c).2.1 u c).2.2 = false ∧
    (join_channel false (join_channel false db u c).2.1 u c).1 = false := by
  by_cases hmem : (⟨u, c⟩ : ChannelMember) ∈ db.channel_members
  · have hcount : db.channel_members.count (⟨u, c⟩ : ChannelMember) = 1 :=
      le_antisymm h (List.one_le_count_iff.mpr hmem)
    have e1 : join_channel false db u c = (false, db, false) := by
      unfold join_channel
      rw [if_pos hmem]
    refine ⟨?_, ?_, ?_, ?_⟩ <;> simp only [e1, hcount]
  · have hzero : db.channel_members.count (⟨u, c⟩ : ChannelMember) = 0 :=
      List.count_eq_zero.mpr hmem
    have e1 : join_channel false db u c =
        (true, { db with channel_members := db.channel_members ++ [⟨u, c⟩] }, false) := by
      unfold join_channel
      rw [if_neg hmem]
      rfl
    have hmem' : (⟨u, c⟩ : ChannelMember) ∈
        (db.channel_members ++ [(⟨u, c⟩ : ChannelMember)]) :=
      List.mem_append_right _ (List.mem_singleton_self _)
    have e2 : join_channel false
        ({ db with channel_members := db.channel_members ++ [⟨u, c⟩] }) u c =
        (false, { db with channel_members := db.channel_members ++ [⟨u, c⟩] }, false) := by
      unfold join_channel
      rw [if_pos hmem']
    refine ⟨?_, ?_, ?_, ?_⟩ <;>
      simp only [e1, e2] <;>
      simp [List.count_append, hzero]

/-- Witness for `c8_join_idempotent_effect` at a concrete store. -/
theorem c8_join_idempotent_effect_witness :
    ((join_channel false (join_channel false db0 "u1" "1").2.1 "u1" "1").2.1.channel_members.count
        (⟨"u1", "1"⟩ : ChannelMember)) = 1 ∧
    (join_channel false db0 "u1" "1").2.2 = false ∧
    (join_channel false (join_channel false db0 "u1" "1").2.1 "u1" "1").2.2 = false ∧
    (join_channel false (join_channel false db0 "u1" "1").2.1 "u1" "1").1 = false :=
  c8_join_idempotent_effect db0 "u1" "1" (by decide)

/-! ## Claim C9 -/

/-- C9 counterexample: at a UI cycle where `now - lastRefreshTimestamp` is
exactly 5 seconds, the claim demands a refresh (`>= 5`), but the code's
strict comparison makes the cycle a no-op. -/
theorem c9_counterexample :
    (5 : ℚ) - (SyncState.mk 0).last_refresh ≥ 5 ∧
    (auto_refresh_check 5 ⟨0⟩).1 = false ∧
    (auto_refresh_check 5 ⟨0⟩).2 = ⟨0⟩ := by
  have hc : ¬((5 : ℚ) - (SyncState.mk 0).last_refresh > 5) := by
    show ¬((5 : ℚ) - 0 > 5)
    norm_num
  refine ⟨?_, ?_, ?_⟩
  · show (5 : ℚ) - 0 ≥ 5
    norm_num
  · unfold auto_refresh_check
    rw [if_neg hc]
  · unfold auto_refresh_check
    rw [if_neg hc]

/-- C9 (amended): while polling, a UI cycle refreshes and resets the timer
exactly when `now - lastRefreshTimestamp` is strictly greater than 5 seconds
(otherwise the cycle is a no-op), and a successful send by the current user
triggers an immediate rerun without consulting or resetting the timer. -/
theorem c9_polling_cycle (now : ℚ) (st : SyncState) (db : DB)
    (u cid input : String) (t : ℚ)
    (hin : input ≠ "") (hit : strip input ≠ "") :
    ((auto_refresh_check now st).1 = true ↔ now - st.last_refresh > 5) ∧
    (auto_refresh_check now st).2.last_refresh =
      (if now - st.last_refresh > 5 then now else st.last_refresh) ∧
    (send_button_cycle db u cid input t st).1 = true ∧
    (send_button_cycle db u cid input t st).2 = st := by
  refine ⟨?_, ?_, ?_, rfl⟩
  · by_cases h : now - st.last_refresh > 5 <;> simp [auto_refresh_check, h]
  · by_cases h : now - st.last_refresh > 5 <;> simp [auto_refresh_check, h]
  · simp [send_button_cycle, handle_send_channel, hin, hit, send_message]

/-- Witness for `c9_polling_cycle` at a concrete cycle. -/
theorem c9_polling_cycle_witness :
    ((auto_refresh_check 6 ⟨0⟩).1 = true ↔ (6 : ℚ) - (SyncState.mk 0).last_refresh > 5) ∧
    (auto_refresh_check 6 ⟨0⟩).2.last_refresh =
      (if (6 : ℚ) - (SyncState.mk 0).last_refresh > 5 then 6 else (SyncState.mk 0).last_refresh) ∧
    (send_button_cycle db0 "u1" "ch1" "hi" 7 ⟨0⟩).1 = true ∧
    (send_button_cycle db0 "u1" "ch1" "hi" 7 ⟨0⟩).2 = ⟨0⟩ :=
  c9_polling_cycle 6 ⟨0⟩ db0 "u1" "ch1" "hi" 7 (by decide) (by decide)

/-! ## Claim C10 -/

/-- C10: the id of a direct message posted to a demo identity is
`demo-msg-<int(time.time())>`, derived solely from the whole second of the
posting clock; two demo posts within the same whole second — here even with
different authors, contents and demo counterparts — get identical ids. -/
theorem c10_demo_id_collision (db db' : DB) (u u' r r' c c' : String) (t t' : ℚ)
    (hr : r ∈ demo_user_ids) (hr' : r' ∈ demo_user_ids) (hsec : pyInt t = pyInt t') :
    ∃ m m', (send_direct_message false db u r c t).1 = some m ∧
      (send_direct_message false db' u' r' c' t').1 = some m' ∧
      m.id = "demo-msg-" ++ toString (pyInt t) ∧ m.id = m'.id := by
  refine ⟨⟨"demo-msg-" ++ toString (pyInt t), u, none, some r, strip c, "text", t⟩,
          ⟨"demo-msg-" ++ toString (pyInt t'), u', none, some r', strip c', "text", t'⟩,
          ?_, ?_, rfl, by rw [hsec]⟩
  · simp [send_direct_message, hr]
  · simp [send_direct_message, hr']

/-- Witness for `c10_demo_id_collision`: two posts within the same whole
second of the clock, to the two different demo conversations. -/
theorem c10_demo_id_collision_witness :
    ∃ m m', (send_direct_message false db0 "u1" demoAlexId "hello" 10).1 = some m ∧
      (send_direct_message false db0 "u2" demoSarahId "yo" 10).1 = some m' ∧
      m.id = "demo-msg-" ++ toString (pyInt 10) ∧ m.id = m'.id :=
  c10_demo_id_collision db0 db0 "u1" "u2" demoAlexId demoSarahId "hello" "yo" 10 10
    (by decide) (by decide) rfl

end Slack
